import Mathlib

/-!
Shallow embedding of the blog application's two Redux store slices
(`blogSlice` and `commentSlice`) and their async thunks.

The reducers are translated case by case from the `extraReducers` builders.
Redux dispatch semantics: an action with no registered case leaves the state
unchanged; this is made explicit in `blogReducer` / `commentReducer` below
(the slices register no `rejected` case for any mutation thunk).

JavaScript details carried over:
* `x || 0` on a numeric map read is `Option.getD 0` (0 is falsy and maps to 0,
  which coincides with `getD 0`);
* `action.payload || []` on an array payload is `Option.getD []`;
* `Array.prototype.find` / `findIndex` / `filter` become `List.find?` /
  `List.findIdx` / `List.filter`; `findIndex` returning `-1` corresponds to
  `List.findIdx` returning the list's length, so the guard `idx !== -1`
  becomes `idx < length`;
* `Record<string, number>` maps become functions `String → Option Int`.

The async thunks perform backend calls; those are modelled by environment
records holding the backend's responses for the one invocation under study,
and each thunk returns its `Except`-valued result together with the list of
storage/table operations it issued, in order.
-/

/-- Request status of a slice: "idle" | "loading" | "succeeded" | "failed". -/
inductive Status where
  | idle
  | loading
  | succeeded
  | failed
deriving DecidableEq, Repr

/-- A post row (interface `Blog` in `blogSlice`). -/
structure Blog where
  id : String
  title : String
  content : String
  user_id : String
  email : String
  image_path : Option String
  created_at : String
deriving DecidableEq, Repr

/-- State of the blog slice (`BlogState`). -/
structure BlogState where
  blogs : List Blog
  status : Status
  error : Option String
deriving DecidableEq, Repr

/-- The `initialState` of the blog slice. -/
def initialBlogState : BlogState :=
  { blogs := [], status := .idle, error := none }

/-- Case `fetchBlogs.pending`: `status = loading`, `error = null`. -/
def fetchBlogsPending (s : BlogState) : BlogState :=
  { s with status := .loading, error := none }

/-- Case `fetchBlogs.fulfilled`: `status = succeeded`,
`blogs = action.payload || []`. -/
def fetchBlogsFulfilled (s : BlogState) (payload : Option (List Blog)) : BlogState :=
  { s with status := .succeeded, blogs := payload.getD [] }

/-- Case `fetchBlogs.rejected`: `status = failed`, `error = action.payload`. -/
def fetchBlogsRejected (s : BlogState) (msg : String) : BlogState :=
  { s with status := .failed, error := some msg }

/-- Case `createBlog.fulfilled`: `if (action.payload) state.blogs.unshift(action.payload)`. -/
def createBlogFulfilled (s : BlogState) (payload : Option Blog) : BlogState :=
  match payload with
  | none => s
  | some b => { s with blogs := b :: s.blogs }

/-- Case `updateBlog.fulfilled`: find the index of the blog whose `id` equals
the payload's `id`; if found (`idx !== -1`), replace it in place. -/
def updateBlogFulfilled (s : BlogState) (payload : Option Blog) : BlogState :=
  match payload with
  | none => s
  | some b =>
    let idx := s.blogs.findIdx (fun x => x.id = b.id)
    if idx < s.blogs.length then { s with blogs := s.blogs.set idx b } else s

/-- Case `deleteBlog.fulfilled`: `state.blogs = state.blogs.filter((b) => b.id !== action.payload)`. -/
def deleteBlogFulfilled (s : BlogState) (payload : String) : BlogState :=
  { s with blogs := s.blogs.filter (fun b => b.id ≠ payload) }

/-- Every action the blog slice can receive from its thunks. The `rejected`
actions of the mutation thunks have no registered case. -/
inductive BlogAction where
  | fetchPending
  | fetchFulfilled (payload : Option (List Blog))
  | fetchRejected (msg : String)
  | createFulfilled (payload : Option Blog)
  | createRejected (msg : String)
  | updateFulfilled (payload : Option Blog)
  | updateRejected (msg : String)
  | deleteFulfilled (id : String)
  | deleteRejected (msg : String)

/-- The blog slice's reducer. Actions without a registered `addCase` (all
mutation `rejected` actions) return the state unchanged, per Redux semantics. -/
def blogReducer (s : BlogState) : BlogAction → BlogState
  | .fetchPending => fetchBlogsPending s
  | .fetchFulfilled p => fetchBlogsFulfilled s p
  | .fetchRejected m => fetchBlogsRejected s m
  | .createFulfilled p => createBlogFulfilled s p
  | .createRejected _ => s
  | .updateFulfilled p => updateBlogFulfilled s p
  | .updateRejected _ => s
  | .deleteFulfilled id => deleteBlogFulfilled s id
  | .deleteRejected _ => s

/-- A comment row (interface `Comment` in `commentSlice`). -/
structure Comment where
  id : String
  content : String
  post_id : String
  user_id : String
  email : String
  image_path : Option String
  created_at : String
  updated_at : String
deriving DecidableEq, Repr

/-- State of the comment slice (`CommentState`). `commentCounts` is the
`Record<string, number>` map from post id to count. -/
structure CommentState where
  comments : List Comment
  commentCounts : String → Option Int
  status : Status
  error : Option String

/-- The `initialState` of the comment slice. -/
def initialCommentState : CommentState :=
  { comments := [], commentCounts := fun _ => none, status := .idle, error := none }

/-- Reducer `clearComments`: empties `comments`, resets `status` and `error`;
`commentCounts` untouched. -/
def clearComments (s : CommentState) : CommentState :=
  { s with comments := [], status := .idle, error := none }

/-- Case `fetchCommentsByPost.pending`. -/
def fetchCommentsByPostPending (s : CommentState) : CommentState :=
  { s with status := .loading, error := none }

/-- Case `fetchCommentsByPost.fulfilled`. -/
def fetchCommentsByPostFulfilled (s : CommentState) (payload : Option (List Comment)) :
    CommentState :=
  { s with status := .succeeded, comments := payload.getD [] }

/-- Case `fetchCommentsByPost.rejected`. -/
def fetchCommentsByPostRejected (s : CommentState) (msg : String) : CommentState :=
  { s with status := .failed, error := some msg }

/-- Case `fetchCommentCounts.fulfilled`: `state.commentCounts = action.payload`
(the whole map is replaced, not merged). -/
def fetchCommentCountsFulfilled (s : CommentState) (payload : String → Option Int) :
    CommentState :=
  { s with commentCounts := payload }

/-- Case `createComment.fulfilled`: prepend the payload to `comments`, then
`state.commentCounts[postId] = (state.commentCounts[postId] || 0) + 1`. -/
def createCommentFulfilled (s : CommentState) (payload : Option Comment) : CommentState :=
  match payload with
  | none => s
  | some c =>
    { s with
      comments := c :: s.comments,
      commentCounts := fun q =>
        if q = c.post_id then some ((s.commentCounts c.post_id).getD 0 + 1)
        else s.commentCounts q }

/-- Case `updateComment.fulfilled`: replace the first comment whose `id`
matches the payload's `id`, in place; no-op when absent. -/
def updateCommentFulfilled (s : CommentState) (payload : Option Comment) : CommentState :=
  match payload with
  | none => s
  | some c =>
    let idx := s.comments.findIdx (fun x => x.id = c.id)
    if idx < s.comments.length then { s with comments := s.comments.set idx c } else s

/-- Case `deleteComment.fulfilled`: look up the deleted comment by id, filter
it out of `comments`, and if it was found decrement its post's count,
`Math.max(0, (state.commentCounts[postId] || 0) - 1)`. -/
def deleteCommentFulfilled (s : CommentState) (payload : String) : CommentState :=
  let deletedComment := s.comments.find? (fun c => c.id = payload)
  let comments := s.comments.filter (fun c => c.id ≠ payload)
  match deletedComment with
  | none => { s with comments := comments }
  | some dc =>
    { s with
      comments := comments,
      commentCounts := fun q =>
        if q = dc.post_id then some (max 0 ((s.commentCounts dc.post_id).getD 0 - 1))
        else s.commentCounts q }

/-- Every action the comment slice can receive. The `rejected` actions of the
mutation thunks and of `fetchCommentCounts` have no registered case. -/
inductive CommentAction where
  | clear
  | fetchByPostPending
  | fetchByPostFulfilled (payload : Option (List Comment))
  | fetchByPostRejected (msg : String)
  | fetchCountsFulfilled (payload : String → Option Int)
  | fetchCountsRejected (msg : String)
  | createFulfilled (payload : Option Comment)
  | createRejected (msg : String)
  | updateFulfilled (payload : Option Comment)
  | updateRejected (msg : String)
  | deleteFulfilled (id : String)
  | deleteRejected (msg : String)

/-- The comment slice's reducer; unregistered actions return the state
unchanged, per Redux semantics. -/
def commentReducer (s : CommentState) : CommentAction → CommentState
  | .clear => clearComments s
  | .fetchByPostPending => fetchCommentsByPostPending s
  | .fetchByPostFulfilled p => fetchCommentsByPostFulfilled s p
  | .fetchByPostRejected m => fetchCommentsByPostRejected s m
  | .fetchCountsFulfilled p => fetchCommentCountsFulfilled s p
  | .fetchCountsRejected _ => s
  | .createFulfilled p => createCommentFulfilled s p
  | .createRejected _ => s
  | .updateFulfilled p => updateCommentFulfilled s p
  | .updateRejected _ => s
  | .deleteFulfilled id => deleteCommentFulfilled s id
  | .deleteRejected _ => s

/-- C3: `createBlog.fulfilled` always inserts the new post at index 0 and
keeps every existing entry in its former relative order, independent of any
`created_at` comparison: the resulting collection is literally the payload
consed onto the previous collection. Status and error are untouched. -/
theorem c3_create_prepends (s : BlogState) (b : Blog) :
    (createBlogFulfilled s (some b)).blogs = b :: s.blogs ∧
    (createBlogFulfilled s (some b)).status = s.status ∧
    (createBlogFulfilled s (some b)).error = s.error := by
  refine ⟨rfl, rfl, rfl⟩

/-- Authenticated user from `getState().auth` (`{ id, email }`). -/
structure User where
  id : String
  email : String
deriving DecidableEq, Repr

/-- One backend side effect issued by a thunk, in program order: a blob
upload to bucket `post-files` at a key, a best-effort blob removal, a row
insert into a table, or a head-only exact count query on a table filtered by
post id. -/
inductive BackendOp where
  | upload (key : String)
  | removeBlob (key : String)
  | insert (table : String)
  | countQuery (table : String) (postId : String)
deriving DecidableEq, Repr

/-- JS falsy check on `user`: the thunks guard `!user || !user.id`, and an
empty-string id is falsy. -/
def authOk : Option User → Bool
  | none => false
  | some u => u.id ≠ ""

/-- Backend responses for one `createBlog` invocation: the session user, the
upload outcome for the attempted key (`none` = success), the row-insert
outcome, and the `Date.now()` value used in the storage key. -/
structure CreateBlogEnv where
  user : Option User
  uploadError : Option String
  insertResult : Except String Blog
  nowMs : String

/-- The `createBlog` thunk. Authentication is checked first; if a file is
supplied, its storage key `userId/nowMs-fileName` is uploaded and an upload
failure rejects with the upload's error message before any insert; otherwise
the row is inserted and the backend's inserted row (or error) is returned. -/
def createBlog (env : CreateBlogEnv) (_title _content : String) (file : Option String) :
    Except String Blog × List BackendOp :=
  match env.user with
  | none => (.error "Not authenticated or user has no ID", [])
  | some u =>
    if u.id = "" then (.error "Not authenticated or user has no ID", [])
    else
      match file with
      | some fileName =>
        let key := u.id ++ "/" ++ env.nowMs ++ "-" ++ fileName
        match env.uploadError with
        | some e => (.error e, [.upload key])
        | none =>
          match env.insertResult with
          | .error e => (.error e, [.upload key, .insert "posts"])
          | .ok b => (.ok b, [.upload key, .insert "posts"])
      | none =>
        match env.insertResult with
        | .error e => (.error e, [.insert "posts"])
        | .ok b => (.ok b, [.insert "posts"])

/-- Dispatching `createBlog`: the fulfilled action carries the returned row;
the rejected action has no registered case in the slice. -/
def dispatchCreateBlog (env : CreateBlogEnv) (title content : String)
    (file : Option String) (s : BlogState) : BlogState :=
  match (createBlog env title content file).1 with
  | .ok b => blogReducer s (.createFulfilled (some b))
  | .error e => blogReducer s (.createRejected e)

/-- Model of `file.name.split(".").pop()`: the extension is the part after the last
dot (the whole name when there is no dot). -/
def fileExt (name : String) : String :=
  (name.splitOn ".").getLastD ""

/-- Backend responses for one `createComment` invocation; `rand` is the
`Math.random().toString(36).substring(7)` suffix. -/
structure CreateCommentEnv where
  user : Option User
  uploadError : Option String
  insertResult : Except String Comment
  nowMs : String
  rand : String

/-- The `createComment` thunk: same shape as `createBlog`, with the storage
key `userId/nowMs-rand.ext` built from a randomized suffix and the file's
extension, and the row inserted into `comments`. -/
def createComment (env : CreateCommentEnv) (_postId _content : String)
    (file : Option String) : Except String Comment × List BackendOp :=
  match env.user with
  | none => (.error "Not authenticated", [])
  | some u =>
    if u.id = "" then (.error "Not authenticated", [])
    else
      match file with
      | some fileName =>
        let key := u.id ++ "/" ++ env.nowMs ++ "-" ++ env.rand ++ "." ++ fileExt fileName
        match env.uploadError with
        | some e => (.error e, [.upload key])
        | none =>
          match env.insertResult with
          | .error e => (.error e, [.upload key, .insert "comments"])
          | .ok c => (.ok c, [.upload key, .insert "comments"])
      | none =>
        match env.insertResult with
        | .error e => (.error e, [.insert "comments"])
        | .ok c => (.ok c, [.insert "comments"])

/-- Dispatching `createComment`; the rejected action has no registered case. -/
def dispatchCreateComment (env : CreateCommentEnv) (postId content : String)
    (file : Option String) (s : CommentState) : CommentState :=
  match (createComment env postId content file).1 with
  | .ok c => commentReducer s (.createFulfilled (some c))
  | .error e => commentReducer s (.createRejected e)

/-- Arguments of the `updateComment` thunk. `oldImagePath` is `none` for
both `undefined` and `null` (the code normalizes with `?? null`);
`shouldRemoveImage` defaults to false when omitted. -/
structure UpdateCommentArgs where
  id : String
  content : String
  file : Option String
  oldImagePath : Option String
  shouldRemoveImage : Bool

/-- Backend responses for one `updateComment` invocation: the session user,
the upload outcome if an upload is attempted, the row-update outcome
(`updateError`), the current row for the targeted id (`row`, the external
backend contract returns the updated record with the patch applied; `none`
means `.single()` finds no row), the `new Date().toISOString()` value, and
the freshly generated storage key's components. -/
structure UpdateCommentEnv where
  user : Option User
  uploadError : Option String
  updateError : Option String
  row : Option Comment
  nowIso : String
  nowMs : String
  rand : String

/-- The row-update step shared by the three `updateComment` cases: the
backend applies the patch `\x7b content, image_path, updated_at \x7d` to the
matching row and returns it, or an error. -/
def updateCommentRow (env : UpdateCommentEnv) (args : UpdateCommentArgs)
    (newImagePath : Option String) (tr : List BackendOp) :
    Except String Comment × List BackendOp :=
  match env.updateError with
  | some e => (.error e, tr)
  | none =>
    match env.row with
    | none => (.error "JSON object requested, multiple (or no) rows returned", tr)
    | some r =>
      (.ok { r with content := args.content, image_path := newImagePath,
                    updated_at := env.nowIso }, tr)

/-- The `updateComment` thunk. After the authentication guard, three
mutually exclusive cases in source order: `shouldRemoveImage` first
(best-effort removal of the old blob, new image path `null`), else a new
file (best-effort removal of the old blob, then upload; upload failure
rejects before the row update), else neither (image path kept). -/
def updateComment (env : UpdateCommentEnv) (args : UpdateCommentArgs) :
    Except String Comment × List BackendOp :=
  match env.user with
  | none => (.error "Not authenticated", [])
  | some u =>
    if u.id = "" then (.error "Not authenticated", [])
    else if args.shouldRemoveImage then
      let tr := match args.oldImagePath with
        | some p => [BackendOp.removeBlob p]
        | none => []
      updateCommentRow env args none tr
    else
      match args.file with
      | some fileName =>
        let key := u.id ++ "/" ++ env.nowMs ++ "-" ++ env.rand ++ "." ++ fileExt fileName
        let tr := (match args.oldImagePath with
          | some p => [BackendOp.removeBlob p]
          | none => []) ++ [BackendOp.upload key]
        match env.uploadError with
        | some e => (.error e, tr)
        | none => updateCommentRow env args (some key) tr
      | none => updateCommentRow env args args.oldImagePath []

/-- Dispatching `updateComment`; the rejected action has no registered case. -/
def dispatchUpdateComment (env : UpdateCommentEnv) (args : UpdateCommentArgs)
    (s : CommentState) : CommentState :=
  match (updateComment env args).1 with
  | .ok c => commentReducer s (.updateFulfilled (some c))
  | .error e => commentReducer s (.updateRejected e)

/-- Backend responses for `fetchCommentCounts`: the exact-count query result
per post id (`Except` error, or the count which may be `null`). -/
structure CountsEnv where
  countResult : String → Except String (Option Int)

/-- The loop body of `fetchCommentCounts`: one head-only count query per post
id, in order; the first error aborts the whole batch (`throw` caught by the
surrounding `try`, rejecting with the error's message); on success the map
entry is `count || 0`. -/
def fetchCountsGo (env : CountsEnv) (acc : String → Option Int)
    (tr : List BackendOp) : List String →
    Except String (String → Option Int) × List BackendOp
  | [] => (.ok acc, tr)
  | p :: rest =>
    let tr := tr ++ [BackendOp.countQuery "comments" p]
    match env.countResult p with
    | .error e => (.error e, tr)
    | .ok c => fetchCountsGo env (fun q => if q = p then some (c.getD 0) else acc q) tr rest

/-- The `fetchCommentCounts` thunk: starts from an empty `counts` object. -/
def fetchCommentCounts (env : CountsEnv) (postIds : List String) :
    Except String (String → Option Int) × List BackendOp :=
  fetchCountsGo env (fun _ => none) [] postIds

/-- Dispatching `fetchCommentCounts`; its rejected action has no registered
case, so a failed batch leaves the state unchanged. -/
def dispatchFetchCommentCounts (env : CountsEnv) (postIds : List String)
    (s : CommentState) : CommentState :=
  match (fetchCommentCounts env postIds).1 with
  | .ok m => commentReducer s (.fetchCountsFulfilled m)
  | .error e => commentReducer s (.fetchCountsRejected e)

/-- A sample post used in concrete instantiations. -/
def blogA : Blog :=
  { id := "a", title := "t", content := "c", user_id := "u", email := "e",
    image_path := none, created_at := "2024-01-01" }

/-- A second sample post with the same id as `blogA` but different content. -/
def blogA2 : Blog := { blogA with title := "t2" }

/-- A sample post with id "z". -/
def blogZ : Blog := { blogA with id := "z" }

/-- A sample post with id "b". -/
def blogB : Blog := { blogA with id := "b" }

/-- A blog state holding exactly `blogA`. -/
def blogStateA : BlogState := { blogs := [blogA], status := .idle, error := none }

/-- A blog state holding two posts that share the id "a". -/
def blogStateDup : BlogState := { blogs := [blogA, blogA2], status := .idle, error := none }

/-- The lengths of the matching and non-matching parts of a filter by id
add up to the whole collection's length. -/
theorem filter_id_length_split (l : List Blog) (i : String) :
    (l.filter (fun b => b.id ≠ i)).length + (l.filter (fun b => b.id = i)).length
      = l.length := by
  induction l with
  | nil => rfl
  | cons x xs ih =>
    simp only [List.filter_cons, decide_not] at ih ⊢
    by_cases h : x.id = i <;> simp [h] <;> omega

/-- C4: `updateBlog.fulfilled` targeting an id not present in `posts` leaves
the whole state unchanged (in particular `posts` keeps its length, elements
and order); when the id is present, the first matching entry is replaced in
place at its index. -/
theorem c4_update_frame :
    (∀ (s : BlogState) (b : Blog), (∀ x ∈ s.blogs, x.id ≠ b.id) →
      updateBlogFulfilled s (some b) = s) ∧
    (∀ (s : BlogState) (b : Blog) (i : ℕ),
      s.blogs.findIdx (fun x => x.id = b.id) = i → i < s.blogs.length →
      (updateBlogFulfilled s (some b)).blogs = s.blogs.set i b) := by
  constructor
  · intro s b h
    have hl : s.blogs.findIdx (fun x => x.id = b.id) = s.blogs.length := by
      rw [List.findIdx_eq_length]
      intro x hx
      simp [h x hx]
    simp [updateBlogFulfilled, hl]
  · intro s b i hi hlt
    simp [updateBlogFulfilled, hi, hlt]

/-- Witness for C4 at concrete inputs: updating with an absent id "z" leaves
the one-post state unchanged; updating with the present id "a" sets index 0. -/
theorem c4_update_frame_witness :
    updateBlogFulfilled blogStateA (some blogZ) = blogStateA ∧
    (updateBlogFulfilled blogStateA (some blogA2)).blogs = blogStateA.blogs.set 0 blogA2 :=
  ⟨c4_update_frame.1 blogStateA blogZ (by decide),
   c4_update_frame.2 blogStateA blogA2 0 (by decide) (by decide)⟩

/-- C5 counterexample: the claim quantifies over every Post Cache state and
asserts `deleteBlog.fulfilled` removes exactly one element whenever a
matching element is present; on a state whose collection holds two entries
sharing the id "a", the filter removes both, so the length drops from 2 to 0
rather than to 1. -/
theorem c5_delete_duplicate_counterexample :
    (∃ b ∈ blogStateDup.blogs, b.id = "a") ∧
    blogStateDup.blogs.length = 2 ∧
    (deleteBlogFulfilled blogStateDup "a").blogs.length = 0 := by
  exact ⟨⟨blogA, by decide, by decide⟩, by decide, by decide⟩

/-- C5 amended: on a state whose collection holds at most one entry with the
given id (the spec's one-post-per-id invariant), `deleteBlog.fulfilled`
removes exactly one element when a matching one is present and none when
absent; an element whose id differs from the given id — in particular one
merely extending it — is never removed. -/
theorem c5_delete_amended :
    (∀ (s : BlogState) (i : String),
      (s.blogs.filter (fun b => b.id = i)).length ≤ 1 →
      (∃ b ∈ s.blogs, b.id = i) →
      (deleteBlogFulfilled s i).blogs.length + 1 = s.blogs.length) ∧
    (∀ (s : BlogState) (i : String),
      (∀ b ∈ s.blogs, b.id ≠ i) →
      (deleteBlogFulfilled s i).blogs = s.blogs) ∧
    (∀ (s : BlogState) (i : String) (b : Blog),
      b ∈ s.blogs → b.id ≠ i → b ∈ (deleteBlogFulfilled s i).blogs) := by
  refine ⟨?_, ?_, ?_⟩
  · intro s i hle ⟨b, hb, hbid⟩
    have hmem : b ∈ s.blogs.filter (fun b => b.id = i) := by
      rw [List.mem_filter]
      exact ⟨hb, by simp [hbid]⟩
    have hpos : 0 < (s.blogs.filter (fun b => b.id = i)).length :=
      List.length_pos_of_mem hmem
    have hsplit := filter_id_length_split s.blogs i
    simp only [deleteBlogFulfilled]
    omega
  · intro s i h
    simp only [deleteBlogFulfilled]
    rw [List.filter_eq_self]
    intro a ha
    simp [h a ha]
  · intro s i b hb hne
    simp only [deleteBlogFulfilled]
    rw [List.mem_filter]
    exact ⟨hb, by simp [hne]⟩

/-- Witness for C5 amended at concrete inputs: deleting the present id "a"
from a one-post state drops the length to 0; deleting the absent id "z"
changes nothing; deleting with id "ab" does not remove the post whose id "a"
is a proper initial segment of "ab". -/
theorem c5_delete_amended_witness :
    (deleteBlogFulfilled blogStateA "a").blogs.length + 1 = blogStateA.blogs.length ∧
    (deleteBlogFulfilled blogStateA "z").blogs = blogStateA.blogs ∧
    blogA ∈ (deleteBlogFulfilled blogStateA "ab").blogs :=
  ⟨c5_delete_amended.1 blogStateA "a" (by decide) ⟨blogA, by decide, by decide⟩,
   c5_delete_amended.2.1 blogStateA "z" (by decide),
   c5_delete_amended.2.2 blogStateA "ab" blogA (by decide) (by decide)⟩

/-- C9 counterexample: the claim says a failed mutation records the failure
message in the cache's shared `error` field; neither slice registers a
`rejected` case for any mutation thunk, so after a failed delete on the
initial blog state the `error` field is still `none`, not the message. -/
theorem c9_error_not_recorded_counterexample :
    (blogReducer initialBlogState (.deleteRejected "boom")).error = none ∧
    (blogReducer initialBlogState (.deleteRejected "boom")).error ≠ some "boom" :=
  ⟨rfl, by decide⟩

/-- C9 amended: a failed mutation (create, update or delete, on either
cache) leaves the cache state entirely unchanged — in particular the status
field never changes and the error field is not written; the failure message
is surfaced only through the operation's own result. Fulfilled mutations
likewise never change the status field. -/
theorem c9_failed_mutation_amended :
    (∀ (s : BlogState) (m : String),
      blogReducer s (.createRejected m) = s ∧
      blogReducer s (.updateRejected m) = s ∧
      blogReducer s (.deleteRejected m) = s) ∧
    (∀ (s : CommentState) (m : String),
      commentReducer s (.createRejected m) = s ∧
      commentReducer s (.updateRejected m) = s ∧
      commentReducer s (.deleteRejected m) = s) ∧
    (∀ (s : BlogState) (pb : Option Blog) (i : String),
      (blogReducer s (.createFulfilled pb)).status = s.status ∧
      (blogReducer s (.updateFulfilled pb)).status = s.status ∧
      (blogReducer s (.deleteFulfilled i)).status = s.status) ∧
    (∀ (s : CommentState) (pc : Option Comment) (i : String),
      (commentReducer s (.createFulfilled pc)).status = s.status ∧
      (commentReducer s (.updateFulfilled pc)).status = s.status ∧
      (commentReducer s (.deleteFulfilled i)).status = s.status) := by
  refine ⟨fun s m => ⟨rfl, rfl, rfl⟩, fun s m => ⟨rfl, rfl, rfl⟩, ?_, ?_⟩
  · intro s pb i
    refine ⟨?_, ?_, rfl⟩
    · cases pb <;> rfl
    · cases pb with
      | none => rfl
      | some b =>
        simp only [blogReducer, updateBlogFulfilled]
        split <;> rfl
  · intro s pc i
    refine ⟨?_, ?_, ?_⟩
    · cases pc <;> rfl
    · cases pc with
      | none => rfl
      | some c =>
        simp only [commentReducer, updateCommentFulfilled]
        split <;> rfl
    · simp only [commentReducer, deleteCommentFulfilled]
      split <;> rfl

/-- A sample comment on post "p1". -/
def commentA : Comment :=
  { id := "c1", content := "hi", post_id := "p1", user_id := "u", email := "e",
    image_path := none, created_at := "2024-01-01", updated_at := "2024-01-01" }

/-- A second sample comment on post "p1". -/
def commentB : Comment := { commentA with id := "c2" }

/-- A comment state holding `commentA` with a recorded count of 2 for "p1". -/
def commentStateA : CommentState :=
  { comments := [commentA],
    commentCounts := fun q => if q = "p1" then some 2 else none,
    status := .idle, error := none }

/-- C10: a successful `deleteComment` whose id is not present in the scoped
comments collection leaves the whole comment state unchanged — nothing is
removed from `comments` and the `commentCounts` map is untouched, because
the decrement is guarded by the lookup of the deleted comment in the cache. -/
theorem c10_delete_absent_noop (s : CommentState) (i : String)
    (h : ∀ c ∈ s.comments, c.id ≠ i) :
    deleteCommentFulfilled s i = s := by
  have hf : s.comments.find? (fun c => c.id = i) = none := by
    rw [List.find?_eq_none]
    intro x hx
    simp [h x hx]
  have hfil : s.comments.filter (fun c => c.id ≠ i) = s.comments := by
    rw [List.filter_eq_self]
    intro a ha
    simp [h a ha]
  simp only [deleteCommentFulfilled, hf, hfil]

/-- Witness for C10 at a concrete input: deleting the absent id "nope" from
a one-comment state returns the state unchanged. -/
theorem c10_delete_absent_noop_witness :
    deleteCommentFulfilled commentStateA "nope" = commentStateA :=
  c10_delete_absent_noop commentStateA "nope" (by decide)

/-- One completion of a `fetchBlogs` dispatch: fulfilled with the backend's
rows (the payload may be absent, coalesced by `|| []`), or rejected with a
message. -/
inductive FetchOutcome where
  | fulfilled (payload : Option (List Blog))
  | rejected (msg : String)

/-- Apply one fetch completion to the blog state through the slice reducer. -/
def applyFetch (s : BlogState) : FetchOutcome → BlogState
  | .fulfilled p => blogReducer s (.fetchFulfilled p)
  | .rejected m => blogReducer s (.fetchRejected m)

/-- The payload of the last successful fetch in a sequence, if any. -/
def lastFetchSuccess : List FetchOutcome → Option (Option (List Blog))
  | [] => none
  | o :: rest =>
    match lastFetchSuccess rest with
    | some p => some p
    | none =>
      match o with
      | .fulfilled p => some p
      | .rejected _ => none

/-- A sequence of fetch completions without any success never changes the
posts collection. -/
theorem blogs_unchanged_of_no_success (rs : List FetchOutcome) :
    ∀ s : BlogState, lastFetchSuccess rs = none →
    (rs.foldl applyFetch s).blogs = s.blogs := by
  induction rs with
  | nil => intro s _; rfl
  | cons o rest ih =>
    intro s h
    cases hr : lastFetchSuccess rest with
    | some p => simp [lastFetchSuccess, hr] at h
    | none =>
      cases o with
      | fulfilled p => simp [lastFetchSuccess, hr] at h
      | rejected m =>
        simpa [List.foldl_cons, applyFetch, blogReducer, fetchBlogsRejected]
          using ih (applyFetch s (.rejected m)) hr

/-- C2: for every sequence of `fetchBlogs` completions, the final posts
collection equals the result of the last successful fetch (its payload
coalesced by `|| []`), regardless of interleaved failures; each successful
fetch replaces the collection wholesale and sets the status to succeeded,
and each failed fetch sets the status to failed and records the message
while leaving the collection unchanged. -/
theorem c2_fetch_last_success :
    (∀ (rs : List FetchOutcome) (p : Option (List Blog)) (s : BlogState),
      lastFetchSuccess rs = some p →
      (rs.foldl applyFetch s).blogs = p.getD []) ∧
    (∀ (s : BlogState) (p : Option (List Blog)),
      (applyFetch s (.fulfilled p)).blogs = p.getD [] ∧
      (applyFetch s (.fulfilled p)).status = .succeeded) ∧
    (∀ (s : BlogState) (m : String),
      (applyFetch s (.rejected m)).blogs = s.blogs ∧
      (applyFetch s (.rejected m)).status = .failed ∧
      (applyFetch s (.rejected m)).error = some m) := by
  refine ⟨?_, fun s p => ⟨rfl, rfl⟩, fun s m => ⟨rfl, rfl, rfl⟩⟩
  intro rs
  induction rs with
  | nil => intro p s h; simp [lastFetchSuccess] at h
  | cons o rest ih =>
    intro p s h
    cases hr : lastFetchSuccess rest with
    | some q =>
      have hq : q = p := by
        simp [lastFetchSuccess, hr] at h
        exact h
      exact hq ▸ ih q (applyFetch s o) hr
    | none =>
      cases o with
      | rejected m => simp [lastFetchSuccess, hr] at h
      | fulfilled q =>
        have hq : q = p := by
          simp [lastFetchSuccess, hr] at h
          exact h
        subst hq
        have := blogs_unchanged_of_no_success rest (applyFetch s (.fulfilled q)) hr
        simpa [applyFetch, blogReducer, fetchBlogsFulfilled] using this

/-- Witness for C2 at a concrete input: two successes interleaved with two
failures end with the second success's rows. -/
theorem c2_fetch_last_success_witness :
    (([FetchOutcome.fulfilled (some [blogA]), .rejected "down",
        .fulfilled (some [blogB]), .rejected "down again"].foldl applyFetch
        initialBlogState).blogs = (some [blogB]).getD []) :=
  c2_fetch_last_success.1
    [.fulfilled (some [blogA]), .rejected "down",
     .fulfilled (some [blogB]), .rejected "down again"]
    (some [blogB]) initialBlogState rfl

/-- One successful comment mutation applied to the comment cache: a
fulfilled create carrying the new row, or a fulfilled delete carrying the
deleted row's id. -/
inductive CommentOp where
  | create (c : Comment)
  | delete (id : String)

/-- Apply one fulfilled mutation through the comment slice reducer. -/
def applyCommentOp (s : CommentState) : CommentOp → CommentState
  | .create c => commentReducer s (.createFulfilled (some c))
  | .delete i => commentReducer s (.deleteFulfilled i)

/-- Apply a sequence of fulfilled comment mutations in order. -/
def applyCommentOps (s : CommentState) (ops : List CommentOp) : CommentState :=
  ops.foldl applyCommentOp s

/-- Number of creates in a mutation sequence. -/
def countCreates : List CommentOp → Nat
  | [] => 0
  | .create _ :: rest => countCreates rest + 1
  | .delete _ :: rest => countCreates rest

/-- Number of deletes in a mutation sequence. -/
def countDeletes : List CommentOp → Nat
  | [] => 0
  | .create _ :: rest => countDeletes rest
  | .delete _ :: rest => countDeletes rest + 1

/-- A mutation sequence is scoped to post `P` from state `s` when every
create carries a comment whose `post_id` is `P` and every delete targets an
id whose first match in the cached comments at that moment (the row the
reducer looks up) has `post_id = P`. -/
def opsForPost (P : String) : CommentState → List CommentOp → Prop
  | _, [] => True
  | s, op :: rest =>
    (match op with
     | .create c => c.post_id = P
     | .delete i => ∃ c, s.comments.find? (fun x => x.id = i) = some c ∧ c.post_id = P) ∧
    opsForPost P (applyCommentOp s op) rest

/-- A mutation sequence never hits the floor of the count for `P` when at
the moment of every delete the recorded count for `P` is positive. -/
def noFloor (P : String) : CommentState → List CommentOp → Prop
  | _, [] => True
  | s, op :: rest =>
    (match op with
     | .create _ => True
     | .delete _ => 0 < (s.commentCounts P).getD 0) ∧
    noFloor P (applyCommentOp s op) rest

/-- Along a scoped mutation sequence that never hits the floor, the recorded
count for `P` tracks the baseline plus creates minus deletes exactly, and
stays non-negative when the baseline is. -/
theorem count_tracks (P : String) (ops : List CommentOp) :
    ∀ (s : CommentState) (c0 : Int), s.commentCounts P = some c0 → 0 ≤ c0 →
    opsForPost P s ops → noFloor P s ops →
    (applyCommentOps s ops).commentCounts P
      = some (c0 + countCreates ops - countDeletes ops) ∧
    0 ≤ c0 + (countCreates ops : Int) - countDeletes ops := by
  induction ops with
  | nil =>
    intro s c0 h h0 _ _
    constructor
    · simpa [applyCommentOps, countCreates, countDeletes] using h
    · simpa [countCreates, countDeletes] using h0
  | cons op rest ih =>
    intro s c0 h h0 hops hnf
    obtain ⟨hop, hops'⟩ := hops
    obtain ⟨hnf1, hnf'⟩ := hnf
    cases op with
    | create c =>
      have hstep : (applyCommentOp s (.create c)).commentCounts P = some (c0 + 1) := by
        simp [applyCommentOp, commentReducer, createCommentFulfilled, hop, h]
      have := ih (applyCommentOp s (.create c)) (c0 + 1) hstep (by omega) hops' hnf'
      refine ⟨?_, ?_⟩
      · rw [show applyCommentOps s (.create c :: rest)
            = applyCommentOps (applyCommentOp s (.create c)) rest from rfl, this.1]
        congr 1
        simp [countCreates, countDeletes]
        ring
      · have h2 := this.2
        simp only [countCreates, countDeletes]
        push_cast at h2 ⊢
        omega
    | delete i =>
      obtain ⟨dc, hfind, hpid⟩ := hop
      have hpos : 0 < c0 := by
        rw [h] at hnf1
        simpa using hnf1
      have hstep : (applyCommentOp s (.delete i)).commentCounts P = some (c0 - 1) := by
        simp only [applyCommentOp, commentReducer, deleteCommentFulfilled, hfind]
        rw [hpid]
        simp [h]
        omega
      have := ih (applyCommentOp s (.delete i)) (c0 - 1) hstep (by omega) hops' hnf'
      refine ⟨?_, ?_⟩
      · rw [show applyCommentOps s (.delete i :: rest)
            = applyCommentOps (applyCommentOp s (.delete i)) rest from rfl, this.1]
        congr 1
        simp [countCreates, countDeletes]
        ring
      · have h2 := this.2
        simp only [countCreates, countDeletes]
        push_cast at h2 ⊢
        omega

/-- A comment state holding `commentA` while the recorded count for its post
"p1" is 0 (a reachable mismatch: counts and comments are populated by
independent fetches). -/
def commentStateZero : CommentState :=
  { comments := [commentA],
    commentCounts := fun q => if q = "p1" then some 0 else none,
    status := .idle, error := none }

/-- C1 counterexample: with baseline count 0 recorded for post "p1" and one
comment of "p1" cached, the sequence delete-then-create (n = 1 successful
create, m = 1 successful delete of a comment with post id "p1", m ≤ n) ends
with count 1, whereas the claimed formula max(0, c0 + n - m) gives 0: the
delete floors at 0 and the later create overshoots the formula. -/
theorem c1_count_formula_counterexample :
    commentStateZero.commentCounts "p1" = some 0 ∧
    opsForPost "p1" commentStateZero [.delete "c1", .create commentB] ∧
    countCreates [CommentOp.delete "c1", .create commentB] = 1 ∧
    countDeletes [CommentOp.delete "c1", .create commentB] = 1 ∧
    (applyCommentOps commentStateZero [.delete "c1", .create commentB]).commentCounts "p1"
      = some 1 ∧
    some (1 : Int) ≠ some (max 0 ((0 : Int) + 1 - 1)) :=
  ⟨rfl, ⟨⟨commentA, by decide, by decide⟩, by decide, trivial⟩, rfl, rfl, by decide, by decide⟩

/-- C1 amended: the formula holds provided the count never hits the 0 floor
during the run, i.e. at the moment of every delete the recorded count for
`P` is positive (this is forced by the counterexample: a delete taken at
recorded count 0 floors, and a later create then exceeds the formula); a
delete is scoped to `P` through the row the reducer looks up. Under that
proviso, after n creates and m deletes the count recorded for `P` equals
max(0, c0 + n - m); unconditionally, each fulfilled create increments the
recorded count of its post by exactly 1, and each fulfilled delete whose id
is found in the cache decrements the found row's post count by exactly 1,
floored at 0. -/
theorem c1_comment_count_amended :
    (∀ (s : CommentState) (P : String) (c0 : Int) (ops : List CommentOp),
      s.commentCounts P = some c0 → 0 ≤ c0 →
      opsForPost P s ops → noFloor P s ops →
      (applyCommentOps s ops).commentCounts P
        = some (max 0 (c0 + countCreates ops - countDeletes ops))) ∧
    (∀ (s : CommentState) (c : Comment) (c0 : Int),
      s.commentCounts c.post_id = some c0 →
      (createCommentFulfilled s (some c)).commentCounts c.post_id = some (c0 + 1)) ∧
    (∀ (s : CommentState) (i : String) (dc : Comment) (c0 : Int),
      s.comments.find? (fun x => x.id = i) = some dc →
      s.commentCounts dc.post_id = some c0 →
      (deleteCommentFulfilled s i).commentCounts dc.post_id = some (max 0 (c0 - 1))) := by
  refine ⟨?_, ?_, ?_⟩
  · intro s P c0 ops h h0 hops hnf
    have := count_tracks P ops s c0 h h0 hops hnf
    rw [this.1]
    congr 1
    have h2 := this.2
    omega
  · intro s c c0 h
    simp [createCommentFulfilled, h]
  · intro s i dc c0 hfind h
    simp only [deleteCommentFulfilled, hfind]
    simp [h]

/-- Witness for C1 amended at a concrete input: from baseline count 2 for
"p1", deleting the cached comment "c1" and then creating a comment of "p1"
ends with count max(0, 2 + 1 - 1) = 2; the per-step conjuncts at the same
concrete state give 2 + 1 = 3 for a create and max(0, 2 - 1) = 1 for a
delete. -/
theorem c1_comment_count_amended_witness :
    ((applyCommentOps commentStateA [.delete "c1", .create commentB]).commentCounts "p1"
      = some (max 0 ((2 : Int) + countCreates [CommentOp.delete "c1", .create commentB]
          - countDeletes [CommentOp.delete "c1", .create commentB]))) ∧
    ((createCommentFulfilled commentStateA (some commentB)).commentCounts commentB.post_id
      = some ((2 : Int) + 1)) ∧
    ((deleteCommentFulfilled commentStateA "c1").commentCounts commentA.post_id
      = some (max 0 ((2 : Int) - 1))) :=
  ⟨c1_comment_count_amended.1 commentStateA "p1" 2 [.delete "c1", .create commentB]
      rfl (by decide) ⟨⟨commentA, by decide, by decide⟩, by decide, trivial⟩
      ⟨by decide, trivial, trivial⟩,
   c1_comment_count_amended.2.1 commentStateA commentB 2 rfl,
   c1_comment_count_amended.2.2 commentStateA "c1" commentA 2 (by decide) rfl⟩

/-- C6: when `updateComment` is invoked with `shouldRemoveImage` true,
removal takes precedence even if a file is also supplied: on success the
returned entity — the one the fulfilled reducer stores in the cache — has
`image_path = none` (so never the new file's key), no upload is attempted,
and the fulfilled reducer writes exactly that entity at the matched index. -/
theorem c6_remove_image_precedence (env : UpdateCommentEnv) (args : UpdateCommentArgs)
    (c : Comment) (tr : List BackendOp)
    (hrm : args.shouldRemoveImage = true)
    (hres : updateComment env args = (.ok c, tr)) :
    c.image_path = none ∧
    (∀ k, BackendOp.upload k ∉ tr) ∧
    (∀ (s : CommentState) (i : ℕ),
      s.comments.findIdx (fun x => x.id = c.id) = i → i < s.comments.length →
      (updateCommentFulfilled s (some c)).comments = s.comments.set i c) := by
  have hstore : ∀ (s : CommentState) (i : ℕ),
      s.comments.findIdx (fun x => x.id = c.id) = i → i < s.comments.length →
      (updateCommentFulfilled s (some c)).comments = s.comments.set i c := by
    intro s i hi hlt
    simp [updateCommentFulfilled, hi, hlt]
  cases hu : env.user with
  | none => simp [updateComment, hu] at hres
  | some u =>
    by_cases hid : u.id = ""
    · simp [updateComment, hu, hid] at hres
    · cases he : env.updateError with
      | some e =>
        cases hold : args.oldImagePath <;>
          simp [updateComment, updateCommentRow, hu, hid, hrm, he, hold] at hres
      | none =>
        cases hrow : env.row with
        | none =>
          cases hold : args.oldImagePath <;>
            simp [updateComment, updateCommentRow, hu, hid, hrm, he, hrow, hold] at hres
        | some r =>
          cases hold : args.oldImagePath with
          | none =>
            simp [updateComment, updateCommentRow, hu, hid, hrm, he, hrow, hold] at hres
            obtain ⟨hc, htr⟩ := hres
            subst htr
            refine ⟨?_, by simp, hstore⟩
            rw [← hc]
          | some p =>
            simp [updateComment, updateCommentRow, hu, hid, hrm, he, hrow, hold] at hres
            obtain ⟨hc, htr⟩ := hres
            subst htr
            refine ⟨?_, by simp, hstore⟩
            rw [← hc]

/-- A concrete environment for a successful `updateComment` call. -/
def updEnvA : UpdateCommentEnv :=
  { user := some { id := "u1", email := "e" }, uploadError := none, updateError := none,
    row := some commentA, nowIso := "2025-01-01", nowMs := "99", rand := "r" }

/-- Concrete `updateComment` arguments: remove the image while also
supplying a new file. -/
def updArgsA : UpdateCommentArgs :=
  { id := "c1", content := "new", file := some "pic.png",
    oldImagePath := some "u1/old.png", shouldRemoveImage := true }

/-- The entity returned by `updateComment updEnvA updArgsA`. -/
def updResultA : Comment :=
  { commentA with content := "new", image_path := none, updated_at := "2025-01-01" }

/-- Witness for C6 at a concrete input: the call with both
`shouldRemoveImage` and a file succeeds with an entity whose image path is
cleared, issues only the best-effort removal of the old blob, and the
reducer stores that entity. -/
theorem c6_remove_image_precedence_witness :
    updResultA.image_path = none ∧
    (∀ k, BackendOp.upload k ∉ [BackendOp.removeBlob "u1/old.png"]) ∧
    (∀ (s : CommentState) (i : ℕ),
      s.comments.findIdx (fun x => x.id = updResultA.id) = i → i < s.comments.length →
      (updateCommentFulfilled s (some updResultA)).comments = s.comments.set i updResultA) :=
  c6_remove_image_precedence updEnvA updArgsA updResultA
    [BackendOp.removeBlob "u1/old.png"] rfl rfl

/-- C7: for either create thunk, when a file is supplied and its upload
fails with message `e` (the authentication guard having passed), the thunk
rejects with exactly `e`, no insert into the `posts`/`comments` table is
issued, and dispatching the rejected outcome leaves the cache state
entirely unchanged. -/
theorem c7_create_upload_failure :
    (∀ (env : CreateBlogEnv) (u : User) (t c nm e : String),
      env.user = some u → u.id ≠ "" → env.uploadError = some e →
      (createBlog env t c (some nm)).1 = .error e ∧
      BackendOp.insert "posts" ∉ (createBlog env t c (some nm)).2 ∧
      ∀ s : BlogState, dispatchCreateBlog env t c (some nm) s = s) ∧
    (∀ (env : CreateCommentEnv) (u : User) (p ct nm e : String),
      env.user = some u → u.id ≠ "" → env.uploadError = some e →
      (createComment env p ct (some nm)).1 = .error e ∧
      BackendOp.insert "comments" ∉ (createComment env p ct (some nm)).2 ∧
      ∀ s : CommentState, dispatchCreateComment env p ct (some nm) s = s) := by
  constructor
  · intro env u t c nm e hu hid hupl
    have hrun : createBlog env t c (some nm)
        = (.error e, [.upload (u.id ++ "/" ++ env.nowMs ++ "-" ++ nm)]) := by
      simp [createBlog, hu, hid, hupl]
    refine ⟨by rw [hrun], by rw [hrun]; simp, ?_⟩
    intro s
    simp [dispatchCreateBlog, hrun, blogReducer]
  · intro env u p ct nm e hu hid hupl
    have hrun : createComment env p ct (some nm)
        = (.error e,
           [.upload (u.id ++ "/" ++ env.nowMs ++ "-" ++ env.rand ++ "." ++ fileExt nm)]) := by
      simp [createComment, hu, hid, hupl]
    refine ⟨by rw [hrun], by rw [hrun]; simp, ?_⟩
    intro s
    simp [dispatchCreateComment, hrun, commentReducer]

/-- A `createBlog` environment whose blob upload fails. -/
def cbEnvFail : CreateBlogEnv :=
  { user := some { id := "u1", email := "e" }, uploadError := some "upload failed",
    insertResult := .error "unused", nowMs := "5" }

/-- A `createComment` environment whose blob upload fails. -/
def ccEnvFail : CreateCommentEnv :=
  { user := some { id := "u1", email := "e" }, uploadError := some "upload failed",
    insertResult := .error "unused", nowMs := "5", rand := "r" }

/-- Witness for C7 at concrete inputs: both failed-upload creates reject
with the upload's message, issue no insert, and leave a concrete cache
state unchanged. -/
theorem c7_create_upload_failure_witness :
    ((createBlog cbEnvFail "t" "c" (some "a.png")).1 = .error "upload failed" ∧
      BackendOp.insert "posts" ∉ (createBlog cbEnvFail "t" "c" (some "a.png")).2 ∧
      ∀ s : BlogState, dispatchCreateBlog cbEnvFail "t" "c" (some "a.png") s = s) ∧
    ((createComment ccEnvFail "p1" "hi" (some "a.png")).1 = .error "upload failed" ∧
      BackendOp.insert "comments" ∉ (createComment ccEnvFail "p1" "hi" (some "a.png")).2 ∧
      ∀ s : CommentState, dispatchCreateComment ccEnvFail "p1" "hi" (some "a.png") s = s) :=
  ⟨c7_create_upload_failure.1 cbEnvFail { id := "u1", email := "e" } "t" "c" "a.png"
      "upload failed" rfl (by decide) rfl,
   c7_create_upload_failure.2 ccEnvFail { id := "u1", email := "e" } "p1" "hi" "a.png"
      "upload failed" rfl (by decide) rfl⟩

/-- Over the remaining ids, `fetchCountsGo` with an all-successful backend
appends exactly one count query per id and returns a mapping. -/
theorem fetchCountsGo_all_ok (env : CountsEnv) :
    ∀ (ids : List String) (acc : String → Option Int) (tr : List BackendOp),
    (∀ p ∈ ids, ∃ c, env.countResult p = .ok c) →
    (fetchCountsGo env acc tr ids).2
        = tr ++ ids.map (fun p => BackendOp.countQuery "comments" p) ∧
    ∃ m, (fetchCountsGo env acc tr ids).1 = .ok m := by
  intro ids
  induction ids with
  | nil => intro acc tr _; exact ⟨by simp [fetchCountsGo], acc, rfl⟩
  | cons p rest ih =>
    intro acc tr h
    obtain ⟨c, hc⟩ := h p (List.mem_cons_self p rest)
    have hrest : ∀ q ∈ rest, ∃ c, env.countResult q = .ok c :=
      fun q hq => h q (List.mem_cons_of_mem p hq)
    have := ih (fun q => if q = p then some (c.getD 0) else acc q)
      (tr ++ [BackendOp.countQuery "comments" p]) hrest
    refine ⟨?_, ?_⟩
    · rw [show (fetchCountsGo env acc tr (p :: rest)).2
          = (fetchCountsGo env (fun q => if q = p then some (c.getD 0) else acc q)
              (tr ++ [BackendOp.countQuery "comments" p]) rest).2 by
            simp [fetchCountsGo, hc], this.1]
      simp
    · obtain ⟨m, hm⟩ := this.2
      exact ⟨m, by simp [fetchCountsGo, hc, hm]⟩

/-- Over the remaining ids, `fetchCountsGo` fails as soon as some id's count
query fails. -/
theorem fetchCountsGo_err (env : CountsEnv) :
    ∀ (ids : List String) (acc : String → Option Int) (tr : List BackendOp),
    (∃ p ∈ ids, ∀ c, env.countResult p ≠ .ok c) →
    ∃ e, (fetchCountsGo env acc tr ids).1 = .error e := by
  intro ids
  induction ids with
  | nil => intro acc tr h; obtain ⟨p, hp, _⟩ := h; exact absurd hp (by simp)
  | cons q rest ih =>
    intro acc tr h
    cases hq : env.countResult q with
    | error e => exact ⟨e, by simp [fetchCountsGo, hq]⟩
    | ok c =>
      obtain ⟨p, hp, hne⟩ := h
      rcases List.mem_cons.mp hp with hpq | hpr
      · exact absurd (hpq ▸ hq) (hne c)
      · obtain ⟨e, he⟩ := ih (fun r => if r = q then some (c.getD 0) else acc r)
          (tr ++ [BackendOp.countQuery "comments" q]) ⟨p, hpr, hne⟩
        exact ⟨e, by simp [fetchCountsGo, hq, he]⟩

/-- C8: `fetchCommentCounts` issues one count query per input id, in order;
when every query succeeds it resolves with a mapping, and when any query
fails the whole batch rejects and dispatching the rejected outcome leaves
the state — in particular the `commentCounts` map — entirely untouched, with
no partial merge. -/
theorem c8_fetch_counts_batch :
    (∀ (env : CountsEnv) (ids : List String),
      (∀ p ∈ ids, ∃ c, env.countResult p = .ok c) →
      (fetchCommentCounts env ids).2 = ids.map (fun p => BackendOp.countQuery "comments" p) ∧
      ∃ m, (fetchCommentCounts env ids).1 = .ok m) ∧
    (∀ (env : CountsEnv) (ids : List String),
      (∃ p ∈ ids, ∀ c, env.countResult p ≠ .ok c) →
      ∃ e, (fetchCommentCounts env ids).1 = .error e) ∧
    (∀ (env : CountsEnv) (ids : List String) (e : String) (s : CommentState),
      (fetchCommentCounts env ids).1 = .error e →
      dispatchFetchCommentCounts env ids s = s) := by
  refine ⟨?_, ?_, ?_⟩
  · intro env ids h
    have := fetchCountsGo_all_ok env ids (fun _ => none) [] h
    exact ⟨by simpa [fetchCommentCounts] using this.1, this.2⟩
  · intro env ids h
    exact fetchCountsGo_err env ids (fun _ => none) [] h
  · intro env ids e s h
    simp [dispatchFetchCommentCounts, h, commentReducer]

/-- A backend whose count queries all succeed. -/
def countsEnvOk : CountsEnv := { countResult := fun _ => .ok (some 3) }

/-- A backend whose count query for "p2" fails. -/
def countsEnvBad : CountsEnv :=
  { countResult := fun p => if p = "p2" then .error "boom" else .ok (some 3) }

/-- Witness for C8 at concrete inputs: with two ids and an all-successful
backend the trace is one query per id and the batch resolves; with the
second id failing the batch rejects and the dispatch leaves a concrete
state unchanged. -/
theorem c8_fetch_counts_batch_witness :
    ((fetchCommentCounts countsEnvOk ["p1", "p2"]).2
        = [BackendOp.countQuery "comments" "p1", BackendOp.countQuery "comments" "p2"] ∧
      ∃ m, (fetchCommentCounts countsEnvOk ["p1", "p2"]).1 = .ok m) ∧
    (∃ e, (fetchCommentCounts countsEnvBad ["p1", "p2"]).1 = .error e) ∧
    dispatchFetchCommentCounts countsEnvBad ["p1", "p2"] commentStateA = commentStateA :=
  ⟨c8_fetch_counts_batch.1 countsEnvOk ["p1", "p2"]
      (fun p _ => ⟨some 3, rfl⟩),
   c8_fetch_counts_batch.2.1 countsEnvBad ["p1", "p2"]
      ⟨"p2", by simp, fun c h => by simp [countsEnvBad] at h⟩,
   c8_fetch_counts_batch.2.2 countsEnvBad ["p1", "p2"] "boom" commentStateA rfl⟩
